import Mathlib

/-!
Shallow embedding of the homework status bot (src/homework.py, src/exceptions.py).

Python JSON-like values are modelled by `Value`; Python exceptions raised by
the program are modelled by `PyError`; fallible Python functions return
`Except PyError _`.  The module-level polling loop of `main` is modelled as a
step function `run_cycle` on an explicit `LoopState`, with the outcome of the
network fetch and of the notification send supplied per cycle as an oracle
(`CycleInput`), since that code talks to external services.
-/

namespace HomeworkBot

/-- A Python value as it can appear in a parsed JSON response (object keys of
JSON are strings, so dict keys are `String`). -/
inductive Value where
  | vNull : Value
  | vBool : Bool → Value
  | vInt : Int → Value
  | vStr : String → Value
  | vList : List Value → Value
  | vDict : List (String × Value) → Value
deriving Repr

/-- The Python exceptions this program can raise.  `WrongAPIAnswerError` is the
name homework.py imports (the spec calls it MalformedResponse / ApiRejected);
`typeError` covers Python `TypeError` (the spec's TypeMismatch); `valueError`
covers Python `ValueError` (the spec's UnknownVerdict at parse_status, and the
fatal startup error of main); `serverError` is exceptions.ServerError (the
spec's ServerUnavailable); `requestException` is requests.RequestException
(the spec's ConnectionFailure). -/
inductive PyError where
  | typeError : String → PyError
  | wrongAPIAnswerError : String → PyError
  | serverError : String → PyError
  | requestException : String → PyError
  | valueError : String → PyError
  | keyError : String → PyError
  | unboundLocalError : String → PyError
  | importError : String → PyError
deriving Repr, DecidableEq

/-- Lookup of a string key in an association list, modelling Python dict
subscription / `.get` on a dict whose keys are unique (as in any dict obtained
by JSON parsing). -/
def pyGet (key : String) : List (String × α) → Option α
  | [] => none
  | kv :: rest => if kv.1 = key then some kv.2 else pyGet key rest

/-- Python `len`: defined on strings, lists and dicts; `none` models the
`TypeError` that `len` raises on unsized values (None, bool, int). -/
def pyLen : Value → Option Nat
  | .vStr s => some s.length
  | .vList xs => some xs.length
  | .vDict kvs => some kvs.length
  | _ => none

/-- The short Python type name, as it appears inside `type(x)` renderings and
builtin error messages. -/
def pyTypeShort : Value → String
  | .vNull => "NoneType"
  | .vBool _ => "bool"
  | .vInt _ => "int"
  | .vStr _ => "str"
  | .vList _ => "list"
  | .vDict _ => "dict"

/-- Rendering of `type(x)` in an f-string, e.g. `<class 'dict'>`. -/
def pyTypeName (v : Value) : String :=
  "<class \u0027" ++ pyTypeShort v ++ "\u0027>"

mutual
/-- Python `repr` of a value (used by `str` on containers). -/
def pyReprVal : Value → String
  | .vNull => "None"
  | .vBool true => "True"
  | .vBool false => "False"
  | .vInt n => toString n
  | .vStr s => "\u0027" ++ s ++ "\u0027"
  | .vList xs => "[" ++ pyReprItems xs ++ "]"
  | .vDict kvs => "\x7b" ++ pyReprPairs kvs ++ "\x7d"

/-- Comma-separated reprs of list items. -/
def pyReprItems : List Value → String
  | [] => ""
  | [x] => pyReprVal x
  | x :: xs => pyReprVal x ++ ", " ++ pyReprItems xs

/-- Comma-separated reprs of dict entries. -/
def pyReprPairs : List (String × Value) → String
  | [] => ""
  | [kv] => "\u0027" ++ kv.1 ++ "\u0027: " ++ pyReprVal kv.2
  | kv :: rest =>
      "\u0027" ++ kv.1 ++ "\u0027: " ++ pyReprVal kv.2 ++ ", " ++ pyReprPairs rest
end

/-- Python `str` of a value, as used when a value is interpolated into an
f-string: a string renders as itself, everything else as its repr. -/
def pyStrVal : Value → String
  | .vStr s => s
  | v => pyReprVal v

/-- Whether a value is hashable in Python (lists and dicts are not; using an
unhashable value as a dict key raises `TypeError`). -/
def hashable : Value → Bool
  | .vList _ => false
  | .vDict _ => false
  | _ => true

/-- homework.py line 36: the fixed verdict texts, keyed by status code. -/
def VERDICTS : List (String × String) :=
  [("approved", "Работа проверена: ревьюеру всё понравилось. Ура!"),
   ("reviewing", "Работа взята на проверку ревьюером."),
   ("rejected", "Работа проверена: у ревьюера есть замечания.")]

/-- `VERDICTS.get(status)` for a hashable status value: only a string status
can equal one of the string keys of `VERDICTS`.  (`status in VERDICTS` is
equivalent to this being `some _`, since no verdict text is `None`.) -/
def status_verdict : Value → Option String
  | .vStr s => pyGet s VERDICTS
  | _ => none

/-- homework.py lines 86-97, `check_response`: checks the API response and
returns the list of homeworks.  The source checks, in order: `len(response)
== 0` (raising builtin `TypeError` first when the value has no `len`),
`isinstance(response, dict)`, presence of the key `homeworks`, and
`isinstance(homeworks, list)`. -/
def check_response (response : Value) : Except PyError (List Value) :=
  match pyLen response with
  | none =>
      .error (.typeError
        ("object of type \u0027" ++ pyTypeShort response ++ "\u0027 has no len()"))
  | some n =>
      if n = 0 then
        .error (.wrongAPIAnswerError "Пустой ответ API.")
      else
        match response with
        | .vDict kvs =>
            match pyGet "homeworks" kvs with
            | none =>
                .error (.wrongAPIAnswerError
                  "В ответе API отсутствует ключ \"homeworks\".")
            | some (.vList hws) => .ok hws
            | some _ =>
                .error (.typeError "Объект \"homeworks\" не является списком")
        | _ =>
            .error (.typeError
              ("Некорректный тип ответа API: \"" ++ pyTypeName response ++ "\"."))

/-- homework.py lines 100-108, `parse_status`: extracts the status of one
homework.  Subscription `homework[...]` on a non-dict raises `TypeError`, a
missing key raises `KeyError`; then `VERDICTS.get(status)` raises `TypeError`
on an unhashable status, and an unknown status raises `ValueError` naming it. -/
def parse_status (homework : Value) : Except PyError String :=
  match homework with
  | .vDict kvs =>
      match pyGet "homework_name" kvs with
      | none => .error (.keyError "homework_name")
      | some name =>
          match pyGet "status" kvs with
          | none => .error (.keyError "status")
          | some status =>
              if hashable status then
                match status_verdict status with
                | none =>
                    .error (.valueError
                      ("Неожиданный статус \"" ++ pyStrVal status ++
                       "\" домашней работы!"))
                | some verdict =>
                    .ok ("Изменился статус проверки работы \"" ++
                         pyStrVal name ++ "\". " ++ verdict)
              else
                .error (.typeError
                  ("unhashable type: \u0027" ++ pyTypeShort status ++ "\u0027"))
  | _ =>
      .error (.typeError
        ("\u0027" ++ pyTypeShort homework ++ "\u0027 object is not subscriptable"))

/-- The three environment variables read at module load (homework.py lines
27-29); `none` models an unset variable (`os.getenv` returns `None`). -/
structure Config where
  PRACTICUM_TOKEN : Option String
  TELEGRAM_TOKEN : Option String
  TELEGRAM_CHAT_ID : Option String

/-- homework.py line 30: the names checked by `check_tokens`. -/
def TOKENS_NAME : List String :=
  ["PRACTICUM_TOKEN", "TELEGRAM_TOKEN", "TELEGRAM_CHAT_ID"]

/-- `globals()[name]` for the three token names. -/
def tokenValue (c : Config) : String → Option String
  | "PRACTICUM_TOKEN" => c.PRACTICUM_TOKEN
  | "TELEGRAM_TOKEN" => c.TELEGRAM_TOKEN
  | "TELEGRAM_CHAT_ID" => c.TELEGRAM_CHAT_ID
  | _ => none

/-- homework.py line 113: the list comprehension collecting the names whose
value `is None` (an empty string is not `None` and is not collected). -/
def missing_tokens (c : Config) : List String :=
  TOKENS_NAME.filter (fun name => (tokenValue c name).isNone)

/-- homework.py lines 111-118, `check_tokens`. -/
def check_tokens (c : Config) : Bool :=
  if (missing_tokens c).length > 0 then false else true

/-- The mutable locals of `main` that persist across loop iterations:
`current_timestamp` (a `Value`, since line 137 assigns it whatever the
response stores under `current_date`), `previous_message`, and `message` —
the latter an `Option` because Python leaves it unbound until its first
assignment. -/
structure LoopState where
  current_timestamp : Value
  previous_message : String
  message : Option String
deriving Repr

/-- The per-cycle interaction with the outside world: the outcome of
`get_api_answer` (either a raised error or the parsed JSON body), the value
of `int(time.time())` at line 137, and whether `bot.send_message` succeeds
(`send_message` returns exactly this boolean, lines 43-54). -/
structure CycleInput where
  fetch : Except PyError Value
  now : Int
  send_ok : Bool

/-- Python `str(error)` for each modelled exception (a `KeyError` renders as
the repr of its missing key). -/
def errStr : PyError → String
  | .typeError m => m
  | .wrongAPIAnswerError m => m
  | .serverError m => m
  | .requestException m => m
  | .valueError m => m
  | .keyError k => "\u0027" ++ k ++ "\u0027"
  | .unboundLocalError n =>
      "local variable \u0027" ++ n ++ "\u0027 referenced before assignment"
  | .importError m => m

/-- homework.py line 144: the generic failure message built in the `except`
block. -/
def failure_message (e : PyError) : String :=
  "Сбой в работе программы: " ++ errStr e

/-- `response.get(key, default)` — only reached after `check_response`
guaranteed that `response` is a dict. -/
def pyGetD (response : Value) (key : String) (dflt : Value) : Value :=
  match response with
  | .vDict kvs =>
      match pyGet key kvs with
      | some v => v
      | none => dflt
  | _ => dflt

/-- The `try`/`except` part of one loop iteration (homework.py lines
131-144): on any error in fetch, validation or translation, only `message`
is set (to the failure text); on successful validation, `previous_message`
is reset to the empty string and `current_timestamp` is advanced (lines
136-137) before translation of the first homework. -/
def run_try (st : LoopState) (inp : CycleInput) : LoopState :=
  match inp.fetch with
  | .error e => { st with message := some (failure_message e) }
  | .ok response =>
      match check_response response with
      | .error e => { st with message := some (failure_message e) }
      | .ok homeworks =>
          let st1 : LoopState :=
            { st with
                previous_message := ""
                current_timestamp := pyGetD response "current_date" (.vInt inp.now) }
          match homeworks with
          | [] => st1
          | hw :: _ =>
              match parse_status hw with
              | .ok m => { st1 with message := some m }
              | .error e => { st1 with message := some (failure_message e) }

/-- One full loop iteration including the `finally` block (homework.py lines
146-150).  Reading `message` while it is still unbound raises
`UnboundLocalError` (which nothing catches: the result is `.error`, the loop
crashes).  Otherwise the message is delivered when it is non-empty and
differs from `previous_message`; the returned `Option String` is the text
passed to `send_message` (`none` when no delivery was attempted), and
`previous_message` is updated only when `send_message` returned `True`. -/
def run_cycle (st : LoopState) (inp : CycleInput) :
    Except PyError (LoopState × Option String) :=
  match (run_try st inp).message with
  | none => .error (.unboundLocalError "message")
  | some m =>
      if m ≠ "" ∧ m ≠ (run_try st inp).previous_message then
        if inp.send_ok then
          .ok ({ run_try st inp with previous_message := m }, some m)
        else
          .ok (run_try st inp, some m)
      else
        .ok (run_try st inp, none)

/-- Iterating the loop over a list of per-cycle inputs, collecting the
delivery attempt of each cycle; an uncaught error stops the run. -/
def run_cycles (st : LoopState) :
    List CycleInput → Except PyError (LoopState × List (Option String))
  | [] => .ok (st, [])
  | inp :: rest =>
      match run_cycle st inp with
      | .error e => .error e
      | .ok (st1, sent) =>
          match run_cycles st1 rest with
          | .error e => .error e
          | .ok (st2, sents) => .ok (st2, sent :: sents)

/-- The state of `main`'s locals just before the loop (homework.py lines
128-129): `current_timestamp = int(time.time())`, `previous_message = ''`,
and `message` not yet bound. -/
def init_state (start : Int) : LoopState :=
  { current_timestamp := .vInt start, previous_message := "", message := none }

/-- homework.py lines 121-150, `main`: the credential check runs before the
bot is created and before any network request; when it fails, `main` raises
`ValueError` and the loop (hence every fetch) is never reached. -/
def main_run (c : Config) (start : Int) (inputs : List CycleInput) :
    Except PyError (LoopState × List (Option String)) :=
  if check_tokens c then run_cycles (init_state start) inputs
  else .error (.valueError "Отсутствуют аутентификационные данные.")

/-- The names defined at top level of src/exceptions.py. -/
def exceptions_defined_names : List String :=
  ["WrongAPIAnswer", "ServerError", "DataAPIFormatError"]

/-- The names homework.py line 13 imports from the exceptions module. -/
def homework_imported_names : List String :=
  ["ServerError", "WrongAPIAnswerError"]

/-- A `from exceptions import ...` statement succeeds exactly when every
imported name is defined in the exceptions module. -/
def import_succeeds : Bool :=
  homework_imported_names.all (fun n => exceptions_defined_names.contains n)

/-- Running the program: Python first loads the module (executing the import
at line 13); only if that succeeds does `main` run.  A failed import raises
`ImportError` naming the missing attribute before any other code executes. -/
def program_run (c : Config) (start : Int) (inputs : List CycleInput) :
    Except PyError (LoopState × List (Option String)) :=
  if import_succeeds then main_run c start inputs
  else .error (.importError "cannot import name WrongAPIAnswerError")

/-- Whether a result of `check_response` is a raised `TypeError` (the spec's
TypeMismatch). -/
def isTypeFailure : Except PyError (List Value) → Bool
  | .error (.typeError _) => true
  | _ => false

/-- Whether a result of `check_response` is a raised `WrongAPIAnswerError`
(the spec's MalformedResponse). -/
def isMalformedFailure : Except PyError (List Value) → Bool
  | .error (.wrongAPIAnswerError _) => true
  | _ => false

/-- Whether a result of `parse_status` is a raised `ValueError` (the spec's
UnknownVerdict). -/
def isValueFailure : Except PyError String → Bool
  | .error (.valueError _) => true
  | _ => false

/-- Whether a value is a Python dict. -/
def isDict : Value → Bool
  | .vDict _ => true
  | _ => false

/-- The error raised inside the `try` block of a cycle, before the reset of
`previous_message` at line 136: an error of `get_api_answer` or of
`check_response`.  (`parse_status` errors happen after the reset.) -/
def pre_reset_error (inp : CycleInput) : Option PyError :=
  match inp.fetch with
  | .error e => some e
  | .ok r =>
      match check_response r with
      | .error e => some e
      | .ok _ => none

/-- The error raised anywhere inside the `try` block of a cycle (fetch,
validation, or translation of the first homework). -/
def try_error (inp : CycleInput) : Option PyError :=
  match inp.fetch with
  | .error e => some e
  | .ok r =>
      match check_response r with
      | .error e => some e
      | .ok [] => none
      | .ok (hw :: _) =>
          match parse_status hw with
          | .error e => some e
          | .ok _ => none

/-- Whether a value is a Python list. -/
def isList : Value → Bool
  | .vList _ => true
  | _ => false

/-- Whether a loop iteration completed without an uncaught exception. -/
def cycleOk : Except PyError (LoopState × Option String) → Bool
  | .ok _ => true
  | .error _ => false

/-- The homework record of end-to-end scenario 1 of the spec. -/
def hwApproved : Value :=
  .vDict [("homework_name", .vStr "proj1"), ("status", .vStr "approved")]

/-- A homework record that has a status but no name. -/
def hwNoName : Value := .vDict [("status", .vStr "unknown")]

/-- A homework record with an unknown status code. -/
def hwWeird : Value :=
  .vDict [("homework_name", .vStr "p"), ("status", .vStr "weird")]

/-- The valid response body of end-to-end scenario 2 of the spec. -/
def respEmptyHomeworks : Value := .vDict [("homeworks", .vList [])]

/-- A valid response body holding one approved homework and an echoed
`current_date`. -/
def respDate (d : Int) : Value :=
  .vDict [("homeworks", .vList [hwApproved]), ("current_date", .vInt d)]

/-- A cycle whose fetch yields `respDate d` and whose delivery succeeds. -/
def cycleAt (d : Int) : CycleInput := ⟨.ok (respDate d), 0, true⟩

/-- The status message of end-to-end scenario 1 of the spec. -/
def approvedMsg : String :=
  "Изменился статус проверки работы \"proj1\". Работа проверена: ревьюеру всё понравилось. Ура!"

/-- Claim C2: the spec says a cycle whose valid response holds no homeworks
sends nothing, raises nothing, and continues into the sleep, already on the
first cycle.  The code instead reads the never-assigned local `message` in
the `finally` block of that first cycle, raising `UnboundLocalError` and
crashing the loop. -/
theorem C2_first_cycle_crash :
    run_cycle (init_state 1700000000)
        ⟨.ok respEmptyHomeworks, 1700000001, true⟩ =
      .error (.unboundLocalError "message") := rfl

/-- Claim C3: homework.py imports `WrongAPIAnswerError` from the exceptions
module, which defines only `WrongAPIAnswer`, `ServerError` and
`DataAPIFormatError`; so the import statement fails and, for every
configuration and every sequence of cycles, the program stops with an
`ImportError` before the credential check or any poll cycle can run. -/
theorem C3_import_fails :
    import_succeeds = false ∧
    ("WrongAPIAnswerError" ∈ homework_imported_names ∧
     "WrongAPIAnswerError" ∉ exceptions_defined_names) ∧
    ∀ (c : Config) (start : Int) (inputs : List CycleInput),
      program_run c start inputs =
        .error (.importError "cannot import name WrongAPIAnswerError") :=
  ⟨rfl, ⟨by decide, by decide⟩, fun _ _ _ => rfl⟩

/-- Claim C7: for every homework mapping carrying a `homework_name` string
and a `status` string that is one of the three known verdict codes,
`parse_status` returns (and does not raise) the message naming the homework
and the fixed verdict text for that code. -/
theorem C7_parse_status_known_verdict
    (kvs : List (String × Value)) (name status verdict : String)
    (hn : pyGet "homework_name" kvs = some (.vStr name))
    (hs : pyGet "status" kvs = some (.vStr status))
    (hv : pyGet status VERDICTS = some verdict) :
    parse_status (.vDict kvs) =
      .ok ("Изменился статус проверки работы \"" ++ name ++ "\". " ++ verdict) := by
  simp [parse_status, hn, hs, hashable, status_verdict, hv, pyStrVal]

/-- Witness for C7 at the concrete input of end-to-end scenario 1: the exact
message of the spec. -/
theorem C7_witness :
    parse_status hwApproved = .ok approvedMsg :=
  C7_parse_status_known_verdict
    [("homework_name", .vStr "proj1"), ("status", .vStr "approved")]
    "proj1" "approved" "Работа проверена: ревьюеру всё понравилось. Ура!"
    rfl rfl rfl

/-- Counterexample to claim C8 as stated: a mapping whose `status` is not a
known verdict code but which lacks the `homework_name` key fails with
`KeyError` (line 102 runs first), not with the `ValueError` (UnknownVerdict)
the claim promises. -/
theorem C8_counterexample :
    parse_status hwNoName = .error (.keyError "homework_name") ∧
    isValueFailure (parse_status hwNoName) = false :=
  ⟨rfl, rfl⟩

/-- Claim C8 as amended: for every homework mapping that has a
`homework_name` key and whose (hashable) `status` value is not one of the
three known verdict codes, `parse_status` fails with `ValueError`
(UnknownVerdict) whose text names that exact offending code. -/
theorem C8_unknown_verdict
    (kvs : List (String × Value)) (nameV status : Value)
    (hn : pyGet "homework_name" kvs = some nameV)
    (hs : pyGet "status" kvs = some status)
    (hhash : hashable status = true)
    (hv : status_verdict status = none) :
    parse_status (.vDict kvs) =
      .error (.valueError
        ("Неожиданный статус \"" ++ pyStrVal status ++ "\" домашней работы!")) := by
  simp [parse_status, hn, hs, hhash, hv]

/-- Witness for the amended C8 at a concrete unknown code. -/
theorem C8_witness :
    parse_status hwWeird =
      .error (.valueError "Неожиданный статус \"weird\" домашней работы!") :=
  C8_unknown_verdict [("homework_name", .vStr "p"), ("status", .vStr "weird")]
    (.vStr "p") (.vStr "weird") rfl rfl rfl rfl

/-- Counterexample to claim C5 as stated: the empty list is a non-mapping
top-level value, yet `check_response` fails on it with `WrongAPIAnswerError`
(MalformedResponse) — the emptiness check at line 88 precedes the type check
at line 90 — and not with the `TypeError` (TypeMismatch) the claim promises
for a wrong top-level type. -/
theorem C5_counterexample :
    check_response (.vList []) =
      .error (.wrongAPIAnswerError "Пустой ответ API.") ∧
    isTypeFailure (check_response (.vList [])) = false :=
  ⟨rfl, rfl⟩

/-- Claim C5 as amended: every empty sized value fails with
`WrongAPIAnswerError` (MalformedResponse); every unsized value and every
non-empty non-mapping fails with `TypeError` (TypeMismatch); every mapping
missing the `homeworks` key fails with `WrongAPIAnswerError`; every mapping
whose `homeworks` value is not a list fails with `TypeError`; and validation
succeeds only on mappings, so no field of a non-mapping body is ever
accessed. -/
theorem C5_check_response_classification :
    (∀ r, pyLen r = some 0 →
      check_response r = .error (.wrongAPIAnswerError "Пустой ответ API.")) ∧
    (∀ r, pyLen r = none → isTypeFailure (check_response r) = true) ∧
    (∀ r n, pyLen r = some (n + 1) → isDict r = false →
      isTypeFailure (check_response r) = true) ∧
    (∀ kvs, pyGet "homeworks" kvs = none →
      isMalformedFailure (check_response (.vDict kvs)) = true) ∧
    (∀ kvs v, pyGet "homeworks" kvs = some v → isList v = false →
      isTypeFailure (check_response (.vDict kvs)) = true) ∧
    (∀ r hws, check_response r = .ok hws → isDict r = true) := by
  refine ⟨?_, ?_, ?_, ?_, ?_, ?_⟩
  · intro r h
    simp [check_response, h]
  · intro r h
    simp [check_response, h, isTypeFailure]
  · intro r n h hd
    cases r <;> simp_all [check_response, pyLen, isDict, isTypeFailure]
  · intro kvs h
    cases kvs <;> simp_all [check_response, pyLen, isMalformedFailure]
  · intro kvs v h hl
    cases kvs with
    | nil => simp [pyGet] at h
    | cons kv rest =>
        cases v <;> simp_all [check_response, pyLen, isList, isTypeFailure]
  · intro r hws h
    cases r <;> simp_all [check_response, pyLen, isDict] <;>
      split at h <;> simp_all

/-- Witness for the amended C5, exercising each clause at a concrete input:
the empty dict, an unsized int, a non-empty string, a mapping without
`homeworks`, a mapping whose `homeworks` is an int, and a valid mapping. -/
theorem C5_witness :
    check_response (.vDict []) =
      .error (.wrongAPIAnswerError "Пустой ответ API.") ∧
    isTypeFailure (check_response (.vInt 5)) = true ∧
    isTypeFailure (check_response (.vStr "ab")) = true ∧
    isMalformedFailure (check_response (.vDict [("x", .vNull)])) = true ∧
    isTypeFailure (check_response (.vDict [("homeworks", .vInt 3)])) = true ∧
    isDict (.vDict [("homeworks", .vList [])]) = true :=
  ⟨C5_check_response_classification.1 _ rfl,
   C5_check_response_classification.2.1 _ rfl,
   C5_check_response_classification.2.2.1 (.vStr "ab") 1 (by decide) rfl,
   C5_check_response_classification.2.2.2.1 [("x", .vNull)] rfl,
   C5_check_response_classification.2.2.2.2.1 [("homeworks", .vInt 3)]
     (.vInt 3) rfl rfl,
   C5_check_response_classification.2.2.2.2.2 (.vDict [("homeworks", .vList [])])
     [] rfl⟩

/-- The configuration of the C4 counterexample: the endpoint auth token is
set but empty. -/
def cfgEmptyToken : Config := ⟨some "", some "t", some "c"⟩

/-- The configuration of the C4 witness: the endpoint auth token is unset. -/
def cfgNoToken : Config := ⟨none, some "t", some "c"⟩

/-- Counterexample to claim C4 as stated: with an empty (but set) endpoint
auth token, `check_tokens` passes — line 113 only tests `is None` — and the
program enters the loop and executes a poll cycle (here one whose fetch
fails), instead of failing at startup as the claim promises for an empty
credential. -/
theorem C4_counterexample :
    check_tokens cfgEmptyToken = true ∧
    main_run cfgEmptyToken 0 [⟨.error (.serverError "down"), 0, true⟩] =
      .ok ({ current_timestamp := .vInt 0,
             previous_message := "Сбой в работе программы: down",
             message := some "Сбой в работе программы: down" },
           [some "Сбой в работе программы: down"]) :=
  ⟨rfl, rfl⟩

/-- Claim C4 as amended: if any of the three credentials is absent (unset,
i.e. `None`), its name is collected in `missing_tokens` (which is what gets
logged), `check_tokens` fails, and `main` raises `ValueError` before the
loop, so no poll cycle and hence no network call ever runs; an empty string,
however, passes the check. -/
theorem C4_missing_token_fatal
    (c : Config) (name : String)
    (hmem : name ∈ TOKENS_NAME)
    (hnone : tokenValue c name = none) :
    name ∈ missing_tokens c ∧
    check_tokens c = false ∧
    ∀ (start : Int) (inputs : List CycleInput),
      main_run c start inputs =
        .error (.valueError "Отсутствуют аутентификационные данные.") := by
  have hmem2 : name ∈ missing_tokens c := by
    simp [missing_tokens, List.mem_filter, hmem, hnone]
  have hlen : (missing_tokens c).length > 0 :=
    List.length_pos.mpr (fun he => by
      rw [he] at hmem2; exact absurd hmem2 (List.not_mem_nil _))
  have hct : check_tokens c = false := by
    simp [check_tokens, hlen]
  exact ⟨hmem2, hct, fun start inputs => by simp [main_run, hct]⟩

/-- Witness for the amended C4: with the endpoint auth token unset, the run
fails fatally at startup and no cycle executes. -/
theorem C4_witness :
    "PRACTICUM_TOKEN" ∈ missing_tokens cfgNoToken ∧
    check_tokens cfgNoToken = false ∧
    main_run cfgNoToken 0 [⟨.error (.serverError "down"), 0, true⟩] =
      .error (.valueError "Отсутствуют аутентификационные данные.") :=
  ⟨(C4_missing_token_fatal cfgNoToken "PRACTICUM_TOKEN" (by decide) rfl).1,
   (C4_missing_token_fatal cfgNoToken "PRACTICUM_TOKEN" (by decide) rfl).2.1,
   (C4_missing_token_fatal cfgNoToken "PRACTICUM_TOKEN" (by decide) rfl).2.2
     0 [⟨.error (.serverError "down"), 0, true⟩]⟩

/-- Once the `try` block has left `message` bound, the `finally` block always
completes the iteration without an uncaught exception. -/
theorem run_cycle_ok_of_message (st : LoopState) (inp : CycleInput)
    (m : String) (h : (run_try st inp).message = some m) :
    cycleOk (run_cycle st inp) = true := by
  simp only [run_cycle, h]
  split
  · split <;> rfl
  · rfl

/-- Claim C6: every error raised during the fetch, validation or translation
steps of a cycle is caught at the cycle boundary, converted into the failure
message `Сбой в работе программы: <details>` (which then flows through the
one delivery gate of the `finally` block like any status message), and the
iteration completes without an uncaught exception. -/
theorem C6_cycle_errors_caught
    (st : LoopState) (inp : CycleInput) (e : PyError)
    (h : try_error inp = some e) :
    (run_try st inp).message = some (failure_message e) ∧
    cycleOk (run_cycle st inp) = true := by
  have hm : (run_try st inp).message = some (failure_message e) := by
    unfold try_error at h
    cases hf : inp.fetch with
    | error e2 =>
        rw [hf] at h
        simp at h
        simp [run_try, hf, h]
    | ok r =>
        rw [hf] at h
        dsimp only at h
        cases hc : check_response r with
        | error e2 =>
            rw [hc] at h
            simp at h
            simp [run_try, hf, hc, h]
        | ok hws =>
            rw [hc] at h
            cases hws with
            | nil => simp at h
            | cons hw t =>
                dsimp only at h
                cases hp : parse_status hw with
                | ok m => rw [hp] at h; simp at h
                | error e2 =>
                    rw [hp] at h
                    simp at h
                    simp [run_try, hf, hc, hp, h]
  exact ⟨hm, run_cycle_ok_of_message st inp _ hm⟩

/-- Witness for C6 at end-to-end scenario 4 of the spec: a 503 from the
server becomes a failure message and the loop survives the cycle. -/
theorem C6_witness :
    (run_try (init_state 0)
        ⟨.error (.serverError "503"), 0, true⟩).message =
      some (failure_message (.serverError "503")) ∧
    cycleOk (run_cycle (init_state 0)
        ⟨.error (.serverError "503"), 0, true⟩) = true :=
  C6_cycle_errors_caught (init_state 0)
    ⟨.error (.serverError "503"), 0, true⟩ (.serverError "503") rfl

/-- The loop state after one successful delivery of `approvedMsg` with the
echoed timestamp 100. -/
def stateAfterApproved : LoopState :=
  { current_timestamp := .vInt 100,
    previous_message := approvedMsg,
    message := some approvedMsg }

/-- Counterexample to claim C1 as stated: two consecutive cycles both fetch
the same valid one-homework response and both compute `approvedMsg`; after
the first cycle `previous_message` equals that very text, yet the second
cycle attempts (and performs) delivery of it again, because line 136 resets
`previous_message` to the empty string on every successfully validated
response.  The reset also shows `previous_message` is not updated only on
successful delivery. -/
theorem C1_counterexample :
    run_cycle (init_state 0) (cycleAt 100) =
      .ok (stateAfterApproved, some approvedMsg) ∧
    stateAfterApproved.previous_message = approvedMsg ∧
    run_cycle stateAfterApproved (cycleAt 100) =
      .ok (stateAfterApproved, some approvedMsg) :=
  ⟨rfl, rfl, rfl⟩

/-- Claim C1 as amended: duplicate suppression survives only for cycles that
fail before the reset at line 136, i.e. in the fetch or validation step: if
such a cycle computes a failure message equal to `previous_message` from the
previous cycle, no delivery is attempted and the state is unchanged except
for `message`.  (Successfully validated cycles reset `previous_message` to
the empty string first, so their status messages are re-delivered even when
identical to the previous cycle's.) -/
theorem C1_suppressed_failures
    (st : LoopState) (inp : CycleInput) (e : PyError)
    (h : pre_reset_error inp = some e)
    (hprev : st.previous_message = failure_message e) :
    run_cycle st inp =
      .ok ({ st with message := some (failure_message e) }, none) := by
  have htry : run_try st inp = { st with message := some (failure_message e) } := by
    unfold pre_reset_error at h
    cases hf : inp.fetch with
    | error e2 =>
        rw [hf] at h
        simp at h
        simp [run_try, hf, h]
    | ok r =>
        rw [hf] at h
        dsimp only at h
        cases hc : check_response r with
        | error e2 =>
            rw [hc] at h
            simp at h
            simp [run_try, hf, hc, h]
        | ok hws => rw [hc] at h; simp at h
  simp [run_cycle, htry, hprev]

/-- Witness for the amended C1: the second of two consecutive identical
fetch failures is suppressed. -/
theorem C1_witness :
    run_cycle
        { current_timestamp := .vInt 0,
          previous_message := failure_message (.serverError "503"),
          message := some (failure_message (.serverError "503")) }
        ⟨.error (.serverError "503"), 9, true⟩ =
      .ok ({ current_timestamp := .vInt 0,
             previous_message := failure_message (.serverError "503"),
             message := some (failure_message (.serverError "503")) }, none) :=
  C1_suppressed_failures
    { current_timestamp := .vInt 0,
      previous_message := failure_message (.serverError "503"),
      message := some (failure_message (.serverError "503")) }
    ⟨.error (.serverError "503"), 9, true⟩ (.serverError "503") rfl rfl

/-- Counterexample to the monotonicity half of claim C9: two successful
polls whose responses echo `current_date` 100 and then 50 leave
`lastTimestamp` at 100 after the first cycle and at 50 after the second —
the code takes whatever the server echoes, so the value decreases. -/
theorem C9_counterexample :
    (run_cycles (init_state 0) [cycleAt 100]).map
        (fun r => r.1.current_timestamp) = .ok (.vInt 100) ∧
    (run_cycles (init_state 0) [cycleAt 100, cycleAt 50]).map
        (fun r => r.1.current_timestamp) = .ok (.vInt 50) ∧
    ¬ (100 : Int) ≤ 50 :=
  ⟨rfl, rfl, by decide⟩

/-- Claim C9 as amended: after every cycle whose response validates
successfully, `current_timestamp` is set to the server-echoed `current_date`
when the key is present, else to the wall-clock time of that cycle; the code
imposes no monotonicity (nor integrality) on the echoed value. -/
theorem C9_timestamp_advance
    (st : LoopState) (inp : CycleInput) (r : Value) (hws : List Value)
    (hf : inp.fetch = .ok r) (hc : check_response r = .ok hws) :
    (run_try st inp).current_timestamp =
      pyGetD r "current_date" (.vInt inp.now) := by
  cases hws with
  | nil => simp [run_try, hf, hc]
  | cons hw t => cases hp : parse_status hw <;> simp [run_try, hf, hc, hp]

/-- Witness for the amended C9 at end-to-end scenario 1: the echoed
`current_date` 100 becomes the new timestamp. -/
theorem C9_witness :
    (run_try (init_state 0) (cycleAt 100)).current_timestamp = .vInt 100 :=
  (C9_timestamp_advance (init_state 0) (cycleAt 100) (respDate 100)
    [hwApproved] rfl rfl).trans rfl

/-- Claim C10: in a cycle whose validated homeworks list is non-empty, the
computed message is exactly the translation of the first element (or the
failure text of its translation error), and two cycles validating to lists
with the same head — whatever their tails — compute the same message and
attempt the same delivery. -/
theorem C10_only_first_homework
    (st : LoopState) (inp1 inp2 : CycleInput) (r1 r2 : Value) (hw : Value)
    (t1 t2 : List Value)
    (hf1 : inp1.fetch = .ok r1) (hf2 : inp2.fetch = .ok r2)
    (hc1 : check_response r1 = .ok (hw :: t1))
    (hc2 : check_response r2 = .ok (hw :: t2)) :
    (run_try st inp1).message =
      some (match parse_status hw with
            | .ok m => m
            | .error e => failure_message e) ∧
    (run_try st inp1).message = (run_try st inp2).message ∧
    (run_cycle st inp1).map Prod.snd = (run_cycle st inp2).map Prod.snd := by
  cases hp : parse_status hw with
  | ok m =>
      refine ⟨by simp [run_try, hf1, hc1, hp], ?_, ?_⟩
      · simp [run_try, hf1, hf2, hc1, hc2, hp]
      · simp only [run_cycle, run_try, hf1, hf2, hc1, hc2, hp]
        by_cases hm : m = "" <;>
          cases hs1 : inp1.send_ok <;> cases hs2 : inp2.send_ok <;>
            simp [hm, Except.map]
  | error e =>
      refine ⟨by simp [run_try, hf1, hc1, hp], ?_, ?_⟩
      · simp [run_try, hf1, hf2, hc1, hc2, hp]
      · simp only [run_cycle, run_try, hf1, hf2, hc1, hc2, hp]
        by_cases hm : failure_message e = "" <;>
          cases hs1 : inp1.send_ok <;> cases hs2 : inp2.send_ok <;>
            simp [hm, Except.map]

/-- Witness for C10: a one-homework response and a two-homework response
with the same first element yield the same message and the same delivery
attempt. -/
theorem C10_witness :
    (run_try (init_state 0)
        ⟨.ok (.vDict [("homeworks", .vList [hwApproved, hwNoName])]), 3, true⟩).message =
      some (match parse_status hwApproved with
            | .ok m => m
            | .error e => failure_message e) ∧
    (run_try (init_state 0)
        ⟨.ok (.vDict [("homeworks", .vList [hwApproved, hwNoName])]), 3, true⟩).message =
      (run_try (init_state 0) (cycleAt 100)).message ∧
    (run_cycle (init_state 0)
        ⟨.ok (.vDict [("homeworks", .vList [hwApproved, hwNoName])]), 3, true⟩).map Prod.snd =
      (run_cycle (init_state 0) (cycleAt 100)).map Prod.snd :=
  C10_only_first_homework (init_state 0)
    ⟨.ok (.vDict [("homeworks", .vList [hwApproved, hwNoName])]), 3, true⟩
    (cycleAt 100)
    (.vDict [("homeworks", .vList [hwApproved, hwNoName])]) (respDate 100)
    hwApproved [hwNoName] [] rfl rfl rfl rfl

end HomeworkBot
